import Mathlib

/-!
Verification of the docker2img conversion pipeline.

A shallow embedding of the core logic of the `docker2img` repository:

* `docker_registry.py` — image-URL parsing, manifest resolution for a
  requested platform, and layer extraction/download bookkeeping;
* `image_converter.py` — the resource ledger (`cleanup`), the end-to-end
  conversion pipeline, the partition-node wait loop, the bootloader
  installation step, and disk-image creation;
* `app.py` — the input validation of the conversion entry point.

Python dicts/lists/strings from JSON manifests are modelled by the `JVal`
type below.  Network transport (`dxf`), the JSON parser of the standard
library, and external commands are modelled as explicit oracle parameters;
everything the repository itself computes is translated directly from the
source.
-/

set_option maxHeartbeats 1000000

namespace D2I

/-- JSON-like values, modelling the Python dict/list/str/int/bool/None
structures that `docker_registry.py` manipulates. -/
inductive JVal where
  | jnull
  | jbool (b : Bool)
  | jnum (n : Int)
  | jstr (s : String)
  | jarr (items : List JVal)
  | jobj (fields : List (String × JVal))
deriving Repr

/-- A Python dict with string keys, as produced by `json.loads`. -/
abbrev JObj := List (String × JVal)

open JVal

mutual

/-- Boolean structural equality on `JVal`. -/
def jeq : JVal → JVal → Bool
  | jnull, jnull => true
  | jbool a, jbool b => a == b
  | jnum a, jnum b => a == b
  | jstr a, jstr b => a == b
  | jarr a, jarr b => jeqList a b
  | jobj a, jobj b => jeqObj a b
  | _, _ => false

def jeqList : List JVal → List JVal → Bool
  | [], [] => true
  | x :: xs, y :: ys => jeq x y && jeqList xs ys
  | _, _ => false

def jeqObj : List (String × JVal) → List (String × JVal) → Bool
  | [], [] => true
  | (k1, v1) :: xs, (k2, v2) :: ys => k1 == k2 && jeq v1 v2 && jeqObj xs ys
  | _, _ => false

end

mutual

theorem jeq_iff : ∀ (a b : JVal), jeq a b = true ↔ a = b
  | jnull, jnull => by simp [jeq]
  | jnull, jbool _ => by simp [jeq]
  | jnull, jnum _ => by simp [jeq]
  | jnull, jstr _ => by simp [jeq]
  | jnull, jarr _ => by simp [jeq]
  | jnull, jobj _ => by simp [jeq]
  | jbool _, jnull => by simp [jeq]
  | jbool a, jbool b => by simp [jeq]
  | jbool _, jnum _ => by simp [jeq]
  | jbool _, jstr _ => by simp [jeq]
  | jbool _, jarr _ => by simp [jeq]
  | jbool _, jobj _ => by simp [jeq]
  | jnum _, jnull => by simp [jeq]
  | jnum _, jbool _ => by simp [jeq]
  | jnum a, jnum b => by simp [jeq]
  | jnum _, jstr _ => by simp [jeq]
  | jnum _, jarr _ => by simp [jeq]
  | jnum _, jobj _ => by simp [jeq]
  | jstr _, jnull => by simp [jeq]
  | jstr _, jbool _ => by simp [jeq]
  | jstr _, jnum _ => by simp [jeq]
  | jstr a, jstr b => by simp [jeq]
  | jstr _, jarr _ => by simp [jeq]
  | jstr _, jobj _ => by simp [jeq]
  | jarr _, jnull => by simp [jeq]
  | jarr _, jbool _ => by simp [jeq]
  | jarr _, jnum _ => by simp [jeq]
  | jarr _, jstr _ => by simp [jeq]
  | jarr a, jarr b => by simp [jeq, jeqList_iff a b]
  | jarr _, jobj _ => by simp [jeq]
  | jobj _, jnull => by simp [jeq]
  | jobj _, jbool _ => by simp [jeq]
  | jobj _, jnum _ => by simp [jeq]
  | jobj _, jstr _ => by simp [jeq]
  | jobj _, jarr _ => by simp [jeq]
  | jobj a, jobj b => by simp [jeq, jeqObj_iff a b]

theorem jeqList_iff : ∀ (a b : List JVal), jeqList a b = true ↔ a = b
  | [], [] => by simp [jeqList]
  | [], _ :: _ => by simp [jeqList]
  | _ :: _, [] => by simp [jeqList]
  | x :: xs, y :: ys => by
      simp [jeqList, Bool.and_eq_true, jeq_iff x y, jeqList_iff xs ys]

theorem jeqObj_iff : ∀ (a b : List (String × JVal)), jeqObj a b = true ↔ a = b
  | [], [] => by simp [jeqObj]
  | [], _ :: _ => by simp [jeqObj]
  | _ :: _, [] => by simp [jeqObj]
  | (k1, v1) :: xs, (k2, v2) :: ys => by
      simp [jeqObj, Bool.and_eq_true, jeq_iff v1 v2, jeqObj_iff xs ys, and_assoc]

end

instance : DecidableEq JVal := fun a b => decidable_of_iff _ (jeq_iff a b)

/-- Python `d.get(k)`: the value at the first matching key, if present. -/
def jGet (o : JObj) (k : String) : Option JVal :=
  match o.find? (fun p => p.1 == k) with
  | some p => some p.2
  | none => none

/-- Python `d.get(k, default)`. -/
def jGetD (o : JObj) (k : String) (d : JVal) : JVal :=
  (jGet o k).getD d

/-- Python `d.get(k)` followed by an `is None` test: a stored JSON `null`
is indistinguishable from an absent key. -/
def jGetNonNull (o : JObj) (k : String) : Option JVal :=
  match jGet o k with
  | some jnull => none
  | some v => some v
  | none => none

/-- Python `k in d`. -/
def hasKey (o : JObj) (k : String) : Bool :=
  o.any (fun p => p.1 == k)

/-- Python truthiness of an optional value (`None` and missing are falsy,
empty containers/strings and zero are falsy). -/
def jTruthy : Option JVal → Bool
  | none => false
  | some jnull => false
  | some (jbool b) => b
  | some (jnum n) => !(n == 0)
  | some (jstr s) => !(s == "")
  | some (jarr l) => !l.isEmpty
  | some (jobj o) => !o.isEmpty

/-- Python `value == t` where `t` is a string: true only for an equal
string value. -/
def jEqStr : Option JVal → String → Bool
  | some (jstr s), t => s == t
  | _, _ => false

/-- How Python renders a value inside an f-string; used where the source
interpolates a manifest field that is normally a string. -/
def asStrView : JVal → String
  | jstr s => s
  | jnum n => toString n
  | jbool b => if b then "True" else "False"
  | jnull => "None"
  | jarr _ => "<list>"
  | jobj _ => "<dict>"

/-- Python `s.split(c)` for a one-character separator, implemented over
the character list. -/
def strSplitOnChar (c : Char) (s : String) : List String :=
  (s.toList.splitOn c).map String.mk

/-- Python `c in s` for a single character. -/
def strContainsChar (s : String) (c : Char) : Bool :=
  s.toList.contains c

/-- Python `s.replace(old, new)` for one-character arguments. -/
def strReplaceChar (old new : Char) (s : String) : String :=
  String.mk (s.toList.map (fun a => if a = old then new else a))

/-- Python `s.lower()`. -/
def strToLower (s : String) : String :=
  String.mk (s.toList.map Char.toLower)

/-- Is `sub` a contiguous sublist of `s`? -/
def isSubstringChars (sub : List Char) : List Char → Bool
  | [] => sub.isEmpty
  | c :: rest => sub.isPrefixOf (c :: rest) || isSubstringChars sub rest

/-- Python `sub in s` for strings. -/
def strContains (s sub : String) : Bool :=
  isSubstringChars sub.toList s.toList

/-! ## Manifest resolution (`docker_registry.py`,
`DockerRegistryClient._resolve_manifest_for_platform`) -/

/-- Python `manifest.get('schemaVersion') in (1, 2)`. -/
def schemaVersionIn12 (m : JObj) : Bool :=
  match jGet m "schemaVersion" with
  | some (jnum 1) => true
  | some (jnum 2) => true
  | _ => false

/-- Python `platform.partition('/')` followed by the source's arrangement
into `(target_os, target_arch)` pieces: the head before the first slash
and the entire remainder after it. -/
def partitionSlash (p : String) : String × String :=
  match strSplitOnChar '/' p with
  | [] => (p, "")
  | [a] => (a, "")
  | a :: rest => (a, String.mk (List.intercalate ['/'] (rest.map String.toList)))

/-- Python `entry_platform.get('os', 'linux') == target_os`. -/
def osMatches (ep : JObj) (target_os : String) : Bool :=
  match jGet ep "os" with
  | none => target_os == "linux"
  | some (jstr s) => s == target_os
  | some _ => false

/-- Python `entry_platform.get('architecture') == target_arch`. -/
def archMatches (ep : JObj) (target_arch : String) : Bool :=
  jEqStr (jGet ep "architecture") target_arch

/-- The loop of lines 156–163: return the first entry whose platform
matches os+architecture; iterating onto a non-dict entry (or a non-dict
`platform` value) is a Python `AttributeError`, modelled as an error. -/
def findBestMatch (target_os target_arch : String) : List JVal → Except String (Option JObj)
  | [] => .ok none
  | jobj eo :: rest =>
      match jGet eo "platform" with
      | some (jobj ep) =>
          if archMatches ep target_arch && osMatches ep target_os then .ok (some eo)
          else findBestMatch target_os target_arch rest
      | none =>
          if archMatches [] target_arch && osMatches [] target_os then .ok (some eo)
          else findBestMatch target_os target_arch rest
      | some _ => .error "AttributeError: platform value is not a dict"
  | _ :: _ => .error "AttributeError: manifest list entry is not a dict"

/-- Lines 155–166: the loop above followed by the fall-back to the first
listed entry when no platform matched. -/
def selectListEntry (target_os target_arch : String) (entries : List JVal) :
    Except String (Option JObj) :=
  match findBestMatch target_os target_arch entries with
  | .error e => .error e
  | .ok (some b) => .ok (some b)
  | .ok none =>
      match entries with
      | jobj e0 :: _ => .ok (some e0)
      | _ :: _ => .error "AttributeError: manifest list entry is not a dict"
      | [] => .ok none

/-- The keys of the dict that look like platform strings (contain `/`). -/
def platformKeys (m : JObj) : List String :=
  (m.map Prod.fst).filter (fun k => strContainsChar k '/')

def manifestListV2 : String := "application/vnd.docker.distribution.manifest.list.v2+json"
def ociIndexV1 : String := "application/vnd.oci.image.index.v1+json"

/-- Embeds `DockerRegistryClient._resolve_manifest_for_platform` (lines 139–212).

`fetch` models `_get_platform_manifest` (registry transport plus JSON
parsing of the response, guaranteed to produce a dict or fail), and
`loads` models `json.loads` on an embedded manifest string.  The `fuel`
argument models Python's finite recursion depth; every claim below is
settled away from exhaustion. -/
def resolve_manifest_for_platform (fetch : String → String → Except String JObj)
    (loads : String → Except String JVal) :
    Nat → JVal → String → Except String JVal
  | 0, _, _ => .error "RecursionError: maximum recursion depth exceeded"
  | fuel + 1, manifest, platform =>
    match manifest with
    | jobj m =>
      -- Already a schema manifest (not a list)
      if schemaVersionIn12 m && (hasKey m "layers" || hasKey m "fsLayers") then
        .ok (jobj m)
      -- Manifest list handling
      else if jTruthy (jGet m "manifests") then
        let t0 := partitionSlash platform
        let target : String × String := if t0.2 == "" then ("linux", t0.1) else t0
        match jGet m "manifests" with
        | some (jarr entries) =>
            match selectListEntry target.1 target.2 entries with
            | .error e => .error e
            | .ok none => .error "Manifest list contains no entries"
            | .ok (some best) =>
                if !jTruthy (jGet best "digest") then
                  .error "Manifest list entry missing digest"
                else
                  let digest := asStrView (jGetD best "digest" jnull)
                  let mt := jGet best "mediaType"
                  let platform_str :=
                    match jGet best "platform" with
                    | some (jobj np) =>
                        (match jGet np "os" with
                         | some v => asStrView v
                         | none => "linux") ++ "/" ++
                        (match jGet np "architecture" with
                         | some v => asStrView v
                         | none => "None")
                    | _ => platform
                  if jEqStr mt manifestListV2 || jEqStr mt ociIndexV1 then
                    match fetch digest platform_str with
                    | .error e => .error e
                    | .ok nested =>
                        resolve_manifest_for_platform fetch loads fuel (jobj nested) platform_str
                  else
                    (fetch digest platform_str).map jobj
        | _ => .error "TypeError: manifests value is not a list of dicts"
      -- DXF multi-platform dict form (keys like linux/amd64)
      else
        let platform_keys := platformKeys m
        if !platform_keys.isEmpty && platform_keys.length == m.length then
          let v0 := jGetNonNull m platform
          let v1 :=
            match v0 with
            | some v => some v
            | none => jGetNonNull m (strReplaceChar '-' '/' platform)
          let v2 :=
            match v1 with
            | some v => some v
            | none =>
                match platform_keys with
                | k0 :: _ => jGet m k0
                | [] => none
          match v2 with
          | some (jstr s) => loads s
          | some (jobj o) => .ok (jobj o)
          | _ => .error ("Unsupported manifest map type for platform " ++ platform)
        else
          .error ("Unable to resolve manifest for platform " ++ platform)
    | _ => .error "Unexpected manifest type"

/-! ## Layer extraction and download
(`docker_registry.py`, `DockerRegistryClient.download_all_layers`) -/

/-- Python `manifest.get('schemaVersion') == k` for an integer literal `k`. -/
def svIs (m : JObj) (k : Int) : Bool :=
  match jGet m "schemaVersion" with
  | some (jnum n) => n == k
  | _ => false

/-- Python `[{'digest': layer['blobSum']} for layer in fsLayersValue]`; iterating
a non-list or indexing a non-dict is a Python error. -/
def fsLayersToLayers : JVal → Except String (List JVal)
  | jarr items =>
      items.mapM (fun l =>
        match l with
        | jobj lo =>
            match jGet lo "blobSum" with
            | some b => .ok (jobj [("digest", b)])
            | none => .error "KeyError: blobSum"
        | _ => .error "TypeError: fsLayers entry is not a dict")
  | _ => .error "TypeError: fsLayers value is not a list"

/-- Lines 309–320: the `layers` value after the schema-version branches
(`[]` when no branch assigns). -/
def extractLayersValue (m : JObj) : Except String JVal :=
  if svIs m 2 then
    if hasKey m "layers" then .ok (jGetD m "layers" jnull)
    else if hasKey m "fsLayers" then
      (fsLayersToLayers (jGetD m "fsLayers" jnull)).map jarr
    else .ok (jarr [])
  else if svIs m 1 then
    if hasKey m "fsLayers" then
      (fsLayersToLayers (jGetD m "fsLayers" jnull)).map jarr
    else .ok (jarr [])
  else .ok (jarr [])

/-- Python `f"{i:03d}"`. -/
def pad3 (n : Nat) : String :=
  let s := toString n
  if s.length < 3 then String.mk (List.replicate (3 - s.length) '0') ++ s else s

/-- The download loop of lines 325–334: one file path per layer entry;
a failed blob pull raises.  `blobOk` models whether pulling a digest
succeeds. -/
def downloadLayersLoop (blobOk : String → Bool) (output_dir : String) :
    Nat → List JVal → Except String (List String)
  | _, [] => .ok []
  | i, l :: rest =>
      match l with
      | jobj lo =>
          match jGet lo "digest" with
          | some (jstr digest) =>
              let layer_filename :=
                "layer_" ++ pad3 i ++ "_" ++ strReplaceChar ':' '_' digest ++ ".tar"
              if blobOk digest then
                (downloadLayersLoop blobOk output_dir (i + 1) rest).map
                  (fun ps => (output_dir ++ "/" ++ layer_filename) :: ps)
              else .error ("Failed to download layer " ++ digest)
          | some _ => .error "AttributeError: digest is not a string"
          | none => .error "KeyError: digest"
      | _ => .error "TypeError: layer entry is not a dict"

/-- The first matching entry's digest in the manifest-list re-fetch block
(lines 285–297), or `none` when the loop completes without a `break`. -/
def findListEntryDigest (platform_os platform_arch : String) :
    List JVal → Except String (Option String)
  | [] => .ok none
  | jobj eo :: rest =>
      match jGet eo "platform" with
      | some (jobj ep) =>
          if archMatches ep platform_arch && osMatches ep platform_os then
            match jGet eo "digest" with
            | some d => .ok (some (asStrView d))
            | none => .error "KeyError: digest"
          else findListEntryDigest platform_os platform_arch rest
      | none =>
          if archMatches [] platform_arch && osMatches [] platform_os then
            match jGet eo "digest" with
            | some d => .ok (some (asStrView d))
            | none => .error "KeyError: digest"
          else findListEntryDigest platform_os platform_arch rest
      | some _ => .error "AttributeError: platform value is not a dict"
  | _ :: _ => .error "AttributeError: manifest list entry is not a dict"

/-- Lines 280–306: when the manifest still carries the Docker
manifest-list media type, re-fetch the platform-specific manifest (first
matching platform, else first entry when there is one, else leave the
manifest unchanged).  `dxfFetch` models `self.dxf.get_manifest` on a
digest together with `json.loads` of a string result. -/
def listRefetchBlock (dxfFetch : String → Except String JVal) (platform : String)
    (m : JObj) : Except String JObj :=
  if jEqStr (jGet m "mediaType") manifestListV2 then
    let hasSlash := strContainsChar platform '/'
    let platform_arch :=
      if hasSlash then (strSplitOnChar '/' platform).getLastD platform else platform
    let platform_os :=
      if hasSlash then (strSplitOnChar '/' platform).headD "linux" else "linux"
    let entries : Except String (List JVal) :=
      match jGet m "manifests" with
      | some (jarr es) => .ok es
      | none => .ok []
      | some _ => .error "TypeError: manifests value is not a list"
    match entries with
    | .error e => .error e
    | .ok es =>
        match findListEntryDigest platform_os platform_arch es with
        | .error e => .error e
        | .ok (some digest) =>
            match dxfFetch digest with
            | .error e => .error e
            | .ok (jobj m2) => .ok m2
            | .ok _ => .error "AttributeError: fetched manifest is not a dict"
        | .ok none =>
            -- for-else: warn, then fall back to the first entry when the list is non-empty
            if jTruthy (jGet m "manifests") then
              match es with
              | jobj e0 :: _ =>
                  match jGet e0 "digest" with
                  | some d =>
                      match dxfFetch (asStrView d) with
                      | .error e => .error e
                      | .ok (jobj m2) => .ok m2
                      | .ok _ => .error "AttributeError: fetched manifest is not a dict"
                  | none => .error "KeyError: digest"
              | _ :: _ => .error "TypeError: manifest list entry is not a dict"
              | [] => .ok m
            else .ok m
  else .ok m

/-- Embeds `DockerRegistryClient.download_all_layers` after the manifest has been
resolved (lines 280–336); the resolved manifest `m` is the result of
`get_manifest`. -/
def download_all_layers (dxfFetch : String → Except String JVal) (blobOk : String → Bool)
    (output_dir platform : String) (m : JObj) : Except String (List String) :=
  match listRefetchBlock dxfFetch platform m with
  | .error e => .error e
  | .ok m2 =>
      match extractLayersValue m2 with
      | .error e => .error e
      | .ok layersVal =>
          if !jTruthy (some layersVal) then
            .error "No layers found in manifest"
          else
            match layersVal with
            | jarr ls => downloadLayersLoop blobOk output_dir 0 ls
            | _ => .error "TypeError: layers value is not iterable of dicts"

/-! ## Image-URL parsing (`docker_registry.py`,
`DockerRegistryClient.parse_image_url`) -/

/-- Python strings, modelled as character lists so that splitting admits
induction. -/
abbrev Str := List Char

/-- Does the list start with two slashes? -/
def isDoubleSlash : Str → Bool
  | a :: b :: _ => a == '/' && b == '/'
  | _ => false

/-- Python `'://' in image_url`. -/
def hasProtocol : Str → Bool
  | [] => false
  | c :: rest => (c == ':' && isDoubleSlash rest) || hasProtocol rest

/-- Python `image_url.split('://', 1)[1]`: everything after the first
`://`. -/
def afterProtocol : Str → Str
  | [] => []
  | c :: rest => if c == ':' && isDoubleSlash rest then rest.drop 2 else afterProtocol rest

def dockerHubHost : Str := "registry-1.docker.io".toList

/-- Embeds `DockerRegistryClient.parse_image_url` (lines 58–95): returns
`(registry_url, repository, tag)`. -/
def parse_image_url (image_url : Str) : Str × Str × Str :=
  let stripped := if hasProtocol image_url then afterProtocol image_url else image_url
  let parts := stripped.splitOn '/'
  let rr : Str × Str :=
    match parts with
    | [p] => (dockerHubHost, "library/".toList ++ p)
    | [_, _] => (dockerHubHost, stripped)
    | p :: rest => (p, List.intercalate ['/'] rest)
    | [] => (dockerHubHost, "library/".toList)
  if (':' : Char) ∈ rr.2 then
    let ps := rr.2.splitOn ':'
    (rr.1, List.intercalate [':'] ps.dropLast, ps.getLastD [])
  else
    (rr.1, rr.2, "latest".toList)

/-! ## Resource ledger (`image_converter.py`, `ImageConverter.cleanup`) -/

/-- The mutable resource lists of an `ImageConverter` instance. -/
structure ConverterState where
  loop_devices : List String
  temp_dirs : List String
deriving DecidableEq, Repr

/-- One release operation issued by `cleanup` (all are best-effort:
`check=False` subprocess calls or `ignore_errors=True` removal). -/
inductive CleanupAction where
  | kpartxDelete (dev : String)
  | losetupDetach (dev : String)
  | rmtree (dir : String)
deriving DecidableEq, Repr

/-- Embeds `ImageConverter.cleanup` (lines 30–50): for each recorded loop device,
`kpartx -d` then `losetup -d`; then remove each recorded temporary
directory.  The lists are not cleared, so the state is returned
unchanged. -/
def cleanup (st : ConverterState) : List CleanupAction × ConverterState :=
  ((st.loop_devices.map (fun d =>
      [CleanupAction.kpartxDelete d, CleanupAction.losetupDetach d])).flatten ++
    st.temp_dirs.map CleanupAction.rmtree, st)

/-- The resources actually released by a cleanup trace, in order:
a loop device is released by its `losetup -d`, a directory by its
removal. -/
def releasedOrder (tr : List CleanupAction) : List String :=
  tr.filterMap (fun a =>
    match a with
    | CleanupAction.losetupDetach d => some d
    | CleanupAction.rmtree d => some d
    | CleanupAction.kpartxDelete _ => none)

/-! ## End-to-end conversion
(`image_converter.py`, `ImageConverter.convert_to_bootable_image`) -/

/-- The observable effect of one pipeline step (create/partition/format/
mount/copy/install/unmount): the loop devices and temporary directories
it registers with the converter before finishing or raising, and whether
it completes without raising. -/
structure StepSpec where
  loops : List String
  dirs : List String
  ok : Bool

/-- Run the pipeline steps in order, accumulating registered resources,
stopping at the first step that raises. -/
def runSteps : ConverterState → List StepSpec → ConverterState × Bool
  | st, [] => (st, true)
  | st, s :: rest =>
      let st2 : ConverterState := ⟨st.loop_devices ++ s.loops, st.temp_dirs ++ s.dirs⟩
      if s.ok then runSteps st2 rest else (st2, false)

/-- Embeds `ImageConverter.convert_to_bootable_image` (lines 476–518): the steps
run inside `try`, and the `finally` block runs `self.cleanup()` before
the method returns or re-raises.  The returned trace is the cleanup
trace issued before control returns to the caller. -/
def convert_to_bootable_image (steps : List StepSpec) : Bool × List CleanupAction :=
  let r := runSteps ⟨[], []⟩ steps
  (r.2, (cleanup r.1).1)

/-- The steps that actually execute: every step up to and including the
first failing one. -/
def executedSteps : List StepSpec → List StepSpec
  | [] => []
  | s :: rest => if s.ok then s :: executedSteps rest else [s]

/-- All loop devices registered during the executed steps. -/
def acquiredLoops (steps : List StepSpec) : List String :=
  ((executedSteps steps).map StepSpec.loops).flatten

/-- All temporary directories registered during the executed steps. -/
def acquiredDirs (steps : List StepSpec) : List String :=
  ((executedSteps steps).map StepSpec.dirs).flatten

/-! ## Partition-node wait
(`image_converter.py`, `ImageConverter._wait_for_partition_device`) -/

/-- The environment the wait loop polls: whether the primary path exists
at a given second, whether the mapper path exists, and whether `lsblk`
reveals a matching partition path. -/
structure WaitEnv where
  existsExpected : Nat → Bool
  existsMapper : Nat → Bool
  lsblkPart : Nat → Option String

/-- The side-effecting escalations of the wait loop. -/
inductive WaitAction where
  | periodicReread
  | kpartxFallback
deriving DecidableEq, Repr

/-- Python `os.path.basename`. -/
def baseName (p : String) : String :=
  (strSplitOnChar '/' p).getLastD p

/-- The message of the exception raised when the wait times out (line
277); it names the expected partition device path. -/
def timeoutMsg (expected : String) (timeout : Nat) : String :=
  "Partition device " ++ expected ++ " did not appear after " ++
    toString timeout ++ " seconds"

/-- The polling loop of lines 199–260, one iteration per elapsed second
(the Python loop sleeps one second per iteration).  `remaining` counts the
seconds left before `elapsed >= timeout`: the loop is entered with
`remaining = timeout` and `elapsed = 0` and maintains
`elapsed + remaining = timeout`, so `remaining = 0` is exactly the
source's `elapsed >= timeout` break condition.  Returns the result
together with the timestamped escalation actions the loop performed. -/
def wait_loop (env : WaitEnv) (expected mapper : String) (timeout : Nat) :
    Nat → Nat → Nat → Bool → Except String String × List (Nat × WaitAction)
  | remaining, elapsed, lastTrigger, attempted =>
    if env.existsExpected elapsed then (.ok expected, [])
    else if env.existsMapper elapsed then (.ok mapper, [])
    else
      match env.lsblkPart elapsed with
      | some name => (.ok name, [])
      | none =>
          let triggerNow := 3 ≤ elapsed - lastTrigger
          let tActs : List (Nat × WaitAction) :=
            if triggerNow then [(elapsed, WaitAction.periodicReread)] else []
          let lastTrigger2 := if triggerNow then elapsed else lastTrigger
          let kNow := !attempted && 10 ≤ elapsed
          let kActs : List (Nat × WaitAction) :=
            if kNow then [(elapsed, WaitAction.kpartxFallback)] else []
          let attempted2 := attempted || kNow
          match remaining with
          | 0 => (.error (timeoutMsg expected timeout), tActs ++ kActs)
          | remaining2 + 1 =>
              let r := wait_loop env expected mapper timeout
                remaining2 (elapsed + 1) lastTrigger2 attempted2
              (r.1, tActs ++ kActs ++ r.2)

/-- Embeds `ImageConverter._wait_for_partition_device` (lines 177–277): the
immediate pre-loop checks followed by the polling loop. -/
def wait_for_partition_device (env : WaitEnv) (loop_device : String)
    (partition_number timeout : Nat) :
    Except String String × List (Nat × WaitAction) :=
  let expected := loop_device ++ "p" ++ toString partition_number
  let mapper := "/dev/mapper/" ++ baseName loop_device ++ "p" ++ toString partition_number
  if env.existsExpected 0 then (.ok expected, [])
  else if env.existsMapper 0 then (.ok mapper, [])
  else wait_loop env expected mapper timeout timeout 0 0 false

/-! ## Bootloader installation
(`image_converter.py`, `ImageConverter.install_kernel_and_bootloader`) -/

/-- The observable actions of the bootloader-installation step. -/
inductive BootAction where
  | bindMount (fs : String)
  | unmountBind (fs : String)
  | chrootCmd (args : List String)
  | hostCmd (args : List String)
  | writeTmpGrubCfg
deriving DecidableEq, Repr

/-- Inputs of the installation body: the contents of `etc/os-release`
inside the guest tree (`none` when the file is absent), and whether the
two `check=True`-style operations of the generic fallback succeed. -/
structure BootEnv where
  osRelease : Option String
  mkdirGrubOk : Bool
  writeCfgOk : Bool
  cpCfgOk : Bool

/-- Embeds `_install_alpine_kernel_bootloader`: every command runs with
`check=False`. -/
def alpineCmds (loop_device : String) : List (List String) :=
  [["apk", "update"],
   ["apk", "add", "linux-lts", "grub", "grub-bios"],
   ["grub-install", "--target=i386-pc", "--boot-directory=/boot", loop_device],
   ["grub-mkconfig", "-o", "/boot/grub/grub.cfg"]]

/-- Embeds `_install_debian_kernel_bootloader`: every command runs with
`check=False`. -/
def debianCmds (loop_device : String) : List (List String) :=
  [["apt-get", "update"],
   ["apt-get", "install", "-y", "linux-image-generic", "grub-pc"],
   ["grub-install", "--target=i386-pc", "--boot-directory=/boot", loop_device],
   ["update-grub"]]

/-- Embeds `_install_generic_kernel_bootloader` (lines 431–463): `mkdir -p` and
the `cp` run with `check=True` and the config write can raise, so this
body can raise partway; `grub-install` runs with `check=False`. -/
def install_generic_kernel_bootloader (env : BootEnv) (mount_point loop_device : String) :
    List BootAction × Bool :=
  let grub_dir := mount_point ++ "/boot/grub"
  let mkdirAct := BootAction.hostCmd ["sudo", "mkdir", "-p", grub_dir]
  if !env.mkdirGrubOk then ([mkdirAct], true)
  else if !env.writeCfgOk then ([mkdirAct], true)
  else
    let cpAct := BootAction.hostCmd ["sudo", "cp", "/tmp/grub.cfg", grub_dir ++ "/grub.cfg"]
    if !env.cpCfgOk then ([mkdirAct, BootAction.writeTmpGrubCfg, cpAct], true)
    else
      ([mkdirAct, BootAction.writeTmpGrubCfg, cpAct,
        BootAction.hostCmd ["sudo", "grub-install", "--target=i386-pc",
          "--boot-directory=" ++ mount_point ++ "/boot", loop_device]], false)

/-- The body of the `try` block (lines 377–393): distribution detection
and the matching installation sequence.  Returns the actions performed
and whether the body raised. -/
def detectAndInstall (env : BootEnv) (mount_point loop_device : String) :
    List BootAction × Bool :=
  match env.osRelease with
  | some os_release =>
      if strContains (strToLower os_release) "alpine" then
        ((alpineCmds loop_device).map BootAction.chrootCmd, false)
      else if strContains (strToLower os_release) "debian" ||
          strContains (strToLower os_release) "ubuntu" then
        ((debianCmds loop_device).map BootAction.chrootCmd, false)
      else install_generic_kernel_bootloader env mount_point loop_device
  | none => install_generic_kernel_bootloader env mount_point loop_device

/-- The bind-mount order of line 372. -/
def bindMountOrder : List String := ["/proc", "/sys", "/dev"]

/-- The unmount order of line 397 (`finally` block). -/
def unmountOrder : List String := ["/dev", "/sys", "/proc"]

/-- Embeds `ImageConverter.install_kernel_and_bootloader` (lines 361–399): bind
mounts, then the guarded body, then — via `finally` — the unmounts with
`check=False`, whether or not the body raised.  Returns the full action
trace and whether the step re-raises. -/
def install_kernel_and_bootloader (env : BootEnv) (mount_point loop_device : String) :
    List BootAction × Bool :=
  let body := detectAndInstall env mount_point loop_device
  (bindMountOrder.map BootAction.bindMount ++ body.1 ++
    unmountOrder.map BootAction.unmountBind, body.2)

/-! ## Disk-image creation (`image_converter.py`,
`ImageConverter.create_disk_image`) -/

/-- The `dd` invocation built on lines 85–88, together with the meaning
of its size arguments: `bs=1M` is a one-mebibyte block size and `count`
is the number of blocks, so `dd` writes `blockSizeBytes * count`
bytes. -/
structure DdInvocation where
  args : List String
  blockSizeBytes : Nat
  count : Nat
deriving DecidableEq, Repr

/-- Embeds `ImageConverter.create_disk_image` (lines 72–90) for a converter
constructed with `image_size_mb`. -/
def create_disk_image (image_size_mb : Nat) (output_path : String) : DdInvocation :=
  { args := ["dd", "if=/dev/zero", "of=" ++ output_path, "bs=1M",
      "count=" ++ toString image_size_mb, "status=progress"]
    blockSizeBytes := 1024 * 1024
    count := image_size_mb }

/-- The size in bytes of the file a `dd` invocation produces. -/
def ddBytesWritten (c : DdInvocation) : Nat :=
  c.blockSizeBytes * c.count

/-! ## Conversion entry point (`app.py`,
`DockerToBootableApp.convert_docker_image`) -/

/-- The externally visible operations of the conversion entry point that
touch the registry, the network, or the disk. -/
inductive AppOp where
  | connectRegistry
  | getImageInfo
  | downloadLayers
  | extractRootfs
  | convertImage
deriving DecidableEq, Repr

/-- Python `str.strip()` restricted to ASCII whitespace. -/
def pyStrip (s : Str) : Str :=
  let ws : List Char := [' ', '\t', '\n', '\r', '\x0b', '\x0c']
  ((s.dropWhile (fun c => ws.contains c)).reverse.dropWhile (fun c => ws.contains c)).reverse

/-- Success oracles for the stages of `convert_docker_image` that involve
external effects. -/
structure AppEnv where
  parseOk : Bool
  connectOk : Bool
  infoOk : Bool
  downloadOk : Bool
  extractOk : Bool
  convertOk : Bool
  outputExists : Bool

def msgEmptyUrl : String := "❌ Error: Please provide a Docker image URL"
def msgSizeTooSmall : String := "❌ Error: Image size must be at least 512MB"

/-- Embeds `DockerToBootableApp.convert_docker_image` (lines 26–133): input
validation, then the staged pipeline; each stage failure returns an
error status and `None`.  The second component is the trace of
registry/download/disk operations performed. -/
def convert_docker_image (env : AppEnv) (image_url : Str) (image_size_mb : Int) :
    (String × Option String) × List AppOp :=
  if pyStrip image_url = [] then
    ((msgEmptyUrl, none), [])
  else if image_size_mb < 512 then
    ((msgSizeTooSmall, none), [])
  else if !env.parseOk then
    (("❌ Error parsing image URL", none), [])
  else
    let parsed := parse_image_url (pyStrip image_url)
    let repository := parsed.2.1
    let tag := parsed.2.2
    if !env.connectOk then
      (("❌ Error connecting to registry", none), [AppOp.connectRegistry])
    else if !env.infoOk then
      (("❌ Error getting image info", none),
        [AppOp.connectRegistry, AppOp.getImageInfo])
    else if !env.downloadOk then
      (("❌ Error downloading layers", none),
        [AppOp.connectRegistry, AppOp.getImageInfo, AppOp.downloadLayers])
    else if !env.extractOk then
      (("❌ Error extracting filesystem", none),
        [AppOp.connectRegistry, AppOp.getImageInfo, AppOp.downloadLayers,
          AppOp.extractRootfs])
    else if !env.convertOk then
      (("❌ Error creating bootable image", none),
        [AppOp.connectRegistry, AppOp.getImageInfo, AppOp.downloadLayers,
          AppOp.extractRootfs, AppOp.convertImage])
    else
      let output_path :=
        "/tmp/" ++ String.mk (repository.map (fun c => if c = '/' then '_' else c)) ++
          "_" ++ String.mk tag ++ "_bootable.img"
      if env.outputExists then
        (("✅ Success! Created bootable image", some output_path),
          [AppOp.connectRegistry, AppOp.getImageInfo, AppOp.downloadLayers,
            AppOp.extractRootfs, AppOp.convertImage])
      else
        (("❌ Error: Output file was not created", none),
          [AppOp.connectRegistry, AppOp.getImageInfo, AppOp.downloadLayers,
            AppOp.extractRootfs, AppOp.convertImage])

/-! ## Fixtures

Concrete manifest-list and platform-map fixtures used by counterexamples
and witnesses. -/

def v2ManifestMT : String := "application/vnd.docker.distribution.manifest.v2+json"

/-- A manifest-list entry for `linux/arm64` (no variant). -/
def entryArm : JObj :=
  [("digest", jstr "sha256:arm64digest"), ("mediaType", jstr v2ManifestMT),
   ("platform", jobj [("os", jstr "linux"), ("architecture", jstr "arm64")])]

/-- A manifest-list entry for `linux/amd64`. -/
def entryAmd : JObj :=
  [("digest", jstr "sha256:amd64digest"), ("mediaType", jstr v2ManifestMT),
   ("platform", jobj [("os", jstr "linux"), ("architecture", jstr "amd64")])]

/-- A manifest-list entry for `linux/arm64/v8`. -/
def entryArmV8 : JObj :=
  [("digest", jstr "sha256:arm64v8digest"), ("mediaType", jstr v2ManifestMT),
   ("platform", jobj [("os", jstr "linux"), ("architecture", jstr "arm64"),
     ("variant", jstr "v8")])]

/-- A manifest-list entry for `linux/arm/v6`. -/
def entryArmV6 : JObj :=
  [("digest", jstr "sha256:armv6digest"), ("mediaType", jstr v2ManifestMT),
   ("platform", jobj [("os", jstr "linux"), ("architecture", jstr "arm"),
     ("variant", jstr "v6")])]

/-- A manifest-list entry for `linux/arm/v7`. -/
def entryArmV7 : JObj :=
  [("digest", jstr "sha256:armv7digest"), ("mediaType", jstr v2ManifestMT),
   ("platform", jobj [("os", jstr "linux"), ("architecture", jstr "arm"),
     ("variant", jstr "v7")])]

/-- The concrete manifest behind `entryArm`. -/
def concreteArm : JObj :=
  [("schemaVersion", jnum 2),
   ("layers", jarr [jobj [("digest", jstr "sha256:layer-arm64")]])]

/-- The concrete manifest behind `entryAmd`. -/
def concreteAmd : JObj :=
  [("schemaVersion", jnum 2),
   ("layers", jarr [jobj [("digest", jstr "sha256:layer-amd64")]])]

/-- The concrete manifest behind `entryArmV6`. -/
def concreteV6 : JObj :=
  [("schemaVersion", jnum 2),
   ("layers", jarr [jobj [("digest", jstr "sha256:layer-armv6")]])]

/-- The concrete manifest behind `entryArmV7`. -/
def concreteV7 : JObj :=
  [("schemaVersion", jnum 2),
   ("layers", jarr [jobj [("digest", jstr "sha256:layer-armv7")]])]

/-- A manifest list with a `linux/arm64` entry listed before a
`linux/amd64` entry. -/
def manifestListFixture : JVal :=
  jobj [("schemaVersion", jnum 2), ("mediaType", jstr manifestListV2),
    ("manifests", jarr [jobj entryArm, jobj entryAmd])]

/-- A manifest list whose entries share os/architecture `linux/arm` and
differ only in variant (`v6` listed first, then `v7`). -/
def variantListFixture : JVal :=
  jobj [("schemaVersion", jnum 2), ("mediaType", jstr manifestListV2),
    ("manifests", jarr [jobj entryArmV6, jobj entryArmV7])]

/-- A transport oracle mapping every fixture digest to its concrete
manifest. -/
def fetchFixture : String → String → Except String JObj := fun digest _ =>
  if digest = "sha256:arm64digest" then .ok concreteArm
  else if digest = "sha256:amd64digest" then .ok concreteAmd
  else if digest = "sha256:armv6digest" then .ok concreteV6
  else if digest = "sha256:armv7digest" then .ok concreteV7
  else .error "unknown digest"

/-- A `json.loads` oracle for the platform-map fixtures: only the marker
string decodes. -/
def loadsFixture : String → Except String JVal := fun s =>
  if s = "arm64v8-manifest-json" then .ok (jobj concreteArm)
  else .error "invalid JSON"

/-- A platform map listing `linux/amd64` first, then `linux/arm64/v8`. -/
def mapFixtureA : JVal :=
  jobj [("linux/amd64", jobj concreteAmd), ("linux/arm64/v8", jobj concreteArm)]

/-- A platform map listing `linux/arm64/v8` first, then `linux/amd64`. -/
def mapFixtureB : JVal :=
  jobj [("linux/arm64/v8", jobj concreteArm), ("linux/amd64", jobj concreteAmd)]

/-! ## Claims -/

/-- Claim C1 counterexample:  The claimed tie-break order
(exact > architecture-only > `linux/amd64` default > first listed) does
not hold for manifest lists:

* requesting `linux/s390x` against a list containing `linux/arm64` (first)
  and `linux/amd64` resolves the first listed entry, not the declared
  `linux/amd64` default;
* requesting `linux/arm/v7` against a list containing `linux/arm/v6`
  (first) and `linux/arm/v7` resolves the first listed entry, not the
  exact variant match, because `partition('/')` makes the target
  architecture the string `arm/v7`, which matches neither entry. -/
theorem c1_counterexample :
    resolve_manifest_for_platform fetchFixture loadsFixture 8 manifestListFixture
      "linux/s390x" = .ok (jobj concreteArm) ∧
    (jobj concreteArm : JVal) ≠ jobj concreteAmd ∧
    resolve_manifest_for_platform fetchFixture loadsFixture 8 variantListFixture
      "linux/arm/v7" = .ok (jobj concreteV6) ∧
    (jobj concreteV6 : JVal) ≠ jobj concreteV7 :=
  ⟨rfl, by decide, rfl, by decide⟩

/-- Whether an entry's `platform` value is a dict or absent (the shapes
the source's `.get` chain handles without raising). -/
def platformFieldWF (eo : JObj) : Bool :=
  match jGet eo "platform" with
  | some (jobj _) => true
  | none => true
  | some _ => false

/-- The os+architecture test of lines 158–161, as a predicate on a single
entry. -/
def entryMatchesB (target_os target_arch : String) (eo : JObj) : Bool :=
  match jGet eo "platform" with
  | some (jobj ep) => archMatches ep target_arch && osMatches ep target_os
  | none => archMatches [] target_arch && osMatches [] target_os
  | some _ => false

/-- Modelled from the amended claim: the first entry matching the
requested os and architecture, else the first listed entry. -/
def specListSelect (target_os target_arch : String) (entries : List JObj) : Option JObj :=
  match entries.find? (entryMatchesB target_os target_arch) with
  | some e => some e
  | none => entries.head?

theorem findBestMatch_eq_find (target_os target_arch : String) :
    ∀ (entries : List JObj), (∀ eo ∈ entries, platformFieldWF eo = true) →
      findBestMatch target_os target_arch (entries.map jobj) =
        .ok (entries.find? (entryMatchesB target_os target_arch))
  | [], _ => rfl
  | eo :: rest, hwf => by
      have hwf0 := hwf eo (List.mem_cons_self eo rest)
      have hwfr : ∀ e ∈ rest, platformFieldWF e = true :=
        fun e he => hwf e (List.mem_cons_of_mem _ he)
      have ih := findBestMatch_eq_find target_os target_arch rest hwfr
      simp only [List.map_cons, findBestMatch, List.find?_cons, entryMatchesB]
      unfold platformFieldWF at hwf0
      cases hv : jGet eo "platform" with
      | none =>
          simp only [hv]
          by_cases hm : (archMatches [] target_arch && osMatches [] target_os) = true
          · simp [hm]
          · simp [hm, Bool.not_eq_true] at *
            simp [hm, ih]
      | some v =>
          cases v with
          | jobj ep =>
              simp only [hv]
              by_cases hm : (archMatches ep target_arch && osMatches ep target_os) = true
              · simp [hm]
              · simp [hm, Bool.not_eq_true] at *
                simp [hm, ih]
          | jnull => rw [hv] at hwf0; simp at hwf0
          | jbool b => rw [hv] at hwf0; simp at hwf0
          | jnum n => rw [hv] at hwf0; simp at hwf0
          | jstr s => rw [hv] at hwf0; simp at hwf0
          | jarr l => rw [hv] at hwf0; simp at hwf0

/-- Claim C1 amended:  Manifest-list selection has exactly two
tiers: the first entry whose platform os (defaulting to `linux`) and
architecture equal the requested os and the entire post-first-slash
remainder of the requested platform — so a variant never participates —
and otherwise the first listed entry.  There is no exact-variant tier and
no `linux/amd64`-default tier. -/
theorem c1_list_selection_two_tiers (target_os target_arch : String)
    (entries : List JObj) (hwf : ∀ eo ∈ entries, platformFieldWF eo = true) :
    selectListEntry target_os target_arch (entries.map jobj) =
      .ok (specListSelect target_os target_arch entries) := by
  unfold selectListEntry specListSelect
  rw [findBestMatch_eq_find target_os target_arch entries hwf]
  cases hf : entries.find? (entryMatchesB target_os target_arch) with
  | some e => rfl
  | none =>
      cases entries with
      | nil => rfl
      | cons e0 rest => rfl

/-- Claim C1 witness:  Requesting `linux/arm64` against
`[linux/arm64/v8, linux/amd64]` selects the `arm64/v8` entry (the
architecture match), as the amended two-tier rule prescribes. -/
theorem c1_witness :
    selectListEntry "linux" "arm64" [jobj entryArmV8, jobj entryAmd] =
      .ok (some entryArmV8) :=
  Eq.trans
    (c1_list_selection_two_tiers "linux" "arm64" [entryArmV8, entryAmd] (by decide))
    (congrArg Except.ok (by decide))

/-- Claim C2 counterexample:  The claimed platform-map tie-break
(exact key > `requestedPlatform + "/"` prefix key > `linux/amd64` key >
first key) does not hold:

* requesting `linux/arm64` against the map
  `{linux/amd64: A, linux/arm64/v8: B}` returns `A` (the first key in
  iteration order), not the prefix match `B`;
* requesting `linux/s390x` against the map
  `{linux/arm64/v8: B, linux/amd64: A}` returns `B` (the first key), not
  the `linux/amd64` entry `A`. -/
theorem c2_counterexample :
    resolve_manifest_for_platform fetchFixture loadsFixture 8 mapFixtureA
      "linux/arm64" = .ok (jobj concreteAmd) ∧
    (jobj concreteAmd : JVal) ≠ jobj concreteArm ∧
    resolve_manifest_for_platform fetchFixture loadsFixture 8 mapFixtureB
      "linux/s390x" = .ok (jobj concreteArm) ∧
    (jobj concreteArm : JVal) ≠ jobj concreteAmd :=
  ⟨rfl, by decide, rfl, by decide⟩

/-- Modelled from the amended claim: the value under the exactly matching
key if present and non-null; else the value under the key obtained by
replacing every `-` with `/` in the requested platform; else the value
under the first platform-pattern key in iteration order. -/
def specMapChoice (m : JObj) (platform : String) : Option JVal :=
  match jGetNonNull m platform with
  | some v => some v
  | none =>
      match jGetNonNull m (strReplaceChar '-' '/' platform) with
      | some v => some v
      | none =>
          match platformKeys m with
          | k :: _ => jGet m k
          | [] => none

/-- Decoding of the chosen platform-map entry: a JSON-text string goes
through `json.loads`, a native dict passes through, anything else is an
error. -/
def decodeMapValue (loads : String → Except String JVal) (platform : String) :
    Option JVal → Except String JVal
  | some (jstr s) => loads s
  | some (jobj o) => .ok (jobj o)
  | _ => .error ("Unsupported manifest map type for platform " ++ platform)

/-- Claim C2 amended:  For a platform-keyed manifest map (every key
contains `/`, and the dict is neither a concrete schema manifest nor a
manifest list), resolution returns the decoded value chosen by:
exact key match first; else the key with `-` replaced by `/`; else the
first platform key in iteration order.  The chosen value is decoded
whether it is a JSON-text string or a native structure. -/
theorem c2_map_selection (fetch : String → String → Except String JObj)
    (loads : String → Except String JVal) (fuel : Nat) (m : JObj) (platform : String)
    (h1 : (schemaVersionIn12 m && (hasKey m "layers" || hasKey m "fsLayers")) = false)
    (h2 : jTruthy (jGet m "manifests") = false)
    (h3 : (!(platformKeys m).isEmpty && (platformKeys m).length == m.length) = true) :
    resolve_manifest_for_platform fetch loads (fuel + 1) (jobj m) platform =
      decodeMapValue loads platform (specMapChoice m platform) := by
  simp only [resolve_manifest_for_platform, h1, h2, h3, Bool.false_eq_true, if_false, if_true]
  unfold specMapChoice decodeMapValue
  cases h0 : jGetNonNull m platform with
  | some v =>
      cases v <;> rfl
  | none =>
      cases hr : jGetNonNull m (strReplaceChar '-' '/' platform) with
      | some v => cases v <;> rfl
      | none =>
          cases hk : platformKeys m with
          | nil =>
              simp [hk] at h3
          | cons k ks =>
              cases hv : jGet m k with
              | none => rfl
              | some v => cases v <;> rfl

/-- Claim C2 witness:  The repository's own fixture: a map holding only
`linux/arm64/v8` (as an embedded JSON string) resolved for `linux/amd64`
falls back to the first key and decodes the JSON text. -/
theorem c2_witness :
    resolve_manifest_for_platform fetchFixture loadsFixture 8
      (jobj [("linux/arm64/v8", jstr "arm64v8-manifest-json")]) "linux/amd64" =
      .ok (jobj concreteArm) :=
  Eq.trans
    (c2_map_selection fetchFixture loadsFixture 7
      [("linux/arm64/v8", jstr "arm64v8-manifest-json")] "linux/amd64" rfl rfl rfl)
    rfl

/-- Claim C3 counterexample:  After acquiring loop devices `[A, B, C]`,
draining releases them in forward order `A, B, C` — not the claimed
reverse order `C, B, A` — and, because the ledger lists are not cleared,
a second drain repeats the same non-empty operation sequence instead of
performing no operation. -/
theorem c3_counterexample :
    releasedOrder (cleanup ⟨["A", "B", "C"], []⟩).1 = ["A", "B", "C"] ∧
    releasedOrder (cleanup ⟨["A", "B", "C"], []⟩).1 ≠ ["C", "B", "A"] ∧
    (cleanup (cleanup (⟨["A", "B", "C"], []⟩ : ConverterState)).2).1 =
      (cleanup ⟨["A", "B", "C"], []⟩).1 ∧
    (cleanup (⟨["A", "B", "C"], []⟩ : ConverterState)).1 ≠ [] := by
  refine ⟨rfl, ?_, rfl, ?_⟩ <;> decide

theorem releasedOrder_loops (ds : List String) :
    releasedOrder ((ds.map (fun d =>
      [CleanupAction.kpartxDelete d, CleanupAction.losetupDetach d])).flatten) = ds := by
  induction ds with
  | nil => rfl
  | cons d rest ih =>
      simp only [List.map_cons, List.flatten_cons, releasedOrder, List.filterMap_append]
      simp only [releasedOrder] at ih
      rw [ih]
      rfl

theorem releasedOrder_dirs (ds : List String) :
    releasedOrder (ds.map CleanupAction.rmtree) = ds := by
  induction ds with
  | nil => rfl
  | cons d rest ih =>
      simp only [List.map_cons, releasedOrder, List.filterMap_cons]
      simp only [releasedOrder] at ih
      rw [ih]

/-- Claim C3 amended:  Draining the ledger releases the loop devices
in forward acquisition order and then the temporary directories in
forward acquisition order; the ledger is left unchanged, so a second
drain performs exactly the same release operations again (empty only when
nothing was acquired).  Each release is best-effort, so the repetition is
harmless but is not a no-op. -/
theorem c3_cleanup_forward_and_repeating (st : ConverterState) :
    releasedOrder (cleanup st).1 = st.loop_devices ++ st.temp_dirs ∧
    (cleanup st).2 = st ∧
    (cleanup (cleanup st).2).1 = (cleanup st).1 ∧
    ((cleanup st).1 = [] ↔ st.loop_devices = [] ∧ st.temp_dirs = []) := by
  refine ⟨?_, rfl, rfl, ?_⟩
  · simp only [cleanup, releasedOrder, List.filterMap_append]
    have h1 := releasedOrder_loops st.loop_devices
    have h2 := releasedOrder_dirs st.temp_dirs
    simp only [releasedOrder] at h1 h2
    rw [h1, h2]
  · simp only [cleanup, List.append_eq_nil, List.flatten_eq_nil_iff, List.map_eq_nil_iff]
    constructor
    · rintro ⟨ha, hb⟩
      refine ⟨?_, hb⟩
      cases h : st.loop_devices with
      | nil => rfl
      | cons d rest =>
          exfalso
          rw [h] at ha
          have := ha [CleanupAction.kpartxDelete d, CleanupAction.losetupDetach d]
            (by simp)
          simp at this
    · rintro ⟨ha, hb⟩
      rw [ha, hb]
      simp

theorem runSteps_loop_devices (steps : List StepSpec) :
    ∀ st : ConverterState,
      (runSteps st steps).1.loop_devices = st.loop_devices ++ acquiredLoops steps := by
  induction steps with
  | nil => intro st; simp [runSteps, acquiredLoops, executedSteps]
  | cons s rest ih =>
      intro st
      simp only [runSteps, acquiredLoops, executedSteps]
      by_cases h : s.ok
      · simp only [h, if_true, ih, acquiredLoops]
        simp [List.append_assoc]
      · simp [h]

theorem runSteps_temp_dirs (steps : List StepSpec) :
    ∀ st : ConverterState,
      (runSteps st steps).1.temp_dirs = st.temp_dirs ++ acquiredDirs steps := by
  induction steps with
  | nil => intro st; simp [runSteps, acquiredDirs, executedSteps]
  | cons s rest ih =>
      intro st
      simp only [runSteps, acquiredDirs, executedSteps]
      by_cases h : s.ok
      · simp only [h, if_true, ih, acquiredDirs]
        simp [List.append_assoc]
      · simp [h]

theorem cleanup_releases_loop (st : ConverterState) (d : String)
    (hd : d ∈ st.loop_devices) : CleanupAction.losetupDetach d ∈ (cleanup st).1 := by
  simp only [cleanup, List.mem_append]
  left
  simp only [List.mem_flatten]
  exact ⟨[CleanupAction.kpartxDelete d, CleanupAction.losetupDetach d],
    List.mem_map_of_mem _ hd, by simp⟩

theorem cleanup_releases_dir (st : ConverterState) (d : String)
    (hd : d ∈ st.temp_dirs) : CleanupAction.rmtree d ∈ (cleanup st).1 := by
  simp only [cleanup, List.mem_append]
  right
  exact List.mem_map_of_mem _ hd

/-- Claim C4: For every assignment of step outcomes — success or a raise
at any stage, with any resources registered before the raise — every loop
device and every temporary directory acquired by the executed steps has
its release action in the cleanup trace that
`convert_to_bootable_image` issues (via its `finally` block) before
returning to the caller. -/
theorem c4_teardown_on_every_path (steps : List StepSpec) :
    (∀ d ∈ acquiredLoops steps,
      CleanupAction.losetupDetach d ∈ (convert_to_bootable_image steps).2) ∧
    (∀ d ∈ acquiredDirs steps,
      CleanupAction.rmtree d ∈ (convert_to_bootable_image steps).2) := by
  constructor
  · intro d hd
    apply cleanup_releases_loop
    rw [runSteps_loop_devices steps ⟨[], []⟩]
    simpa using hd
  · intro d hd
    apply cleanup_releases_dir
    rw [runSteps_temp_dirs steps ⟨[], []⟩]
    simpa using hd

/-- A pipeline run that registers a loop device and a directory, then
registers a second loop device in a step that raises. -/
def demoSteps : List StepSpec :=
  [⟨["/dev/loop0"], ["/tmp/mnt0"], true⟩, ⟨["/dev/loop1"], [], false⟩,
   ⟨["/dev/loop9"], ["/tmp/never"], true⟩]

/-- Claim C4 witness:  In the failing run `demoSteps`, the loop device
registered by the failing step is released by the returned cleanup
trace. -/
theorem c4_witness :
    CleanupAction.losetupDetach "/dev/loop1" ∈ (convert_to_bootable_image demoSteps).2 :=
  (c4_teardown_on_every_path demoSteps).1 "/dev/loop1" (by decide)

/-- Claim C9: For every requested size of `n` megabytes, the `dd`
invocation that creates the backing file writes exactly
`n * 1024 * 1024` bytes (block size `1M`, `count = n`), before any
partitioning; in particular a request of 1024 MB produces exactly
`1073741824` bytes. -/
theorem c9_disk_image_exact_size :
    (∀ (n : Nat) (path : String),
      ddBytesWritten (create_disk_image n path) = n * 1024 * 1024) ∧
    ddBytesWritten (create_disk_image 1024 "/tmp/out.img") = 1073741824 := by
  constructor
  · intro n path
    simp only [ddBytesWritten, create_disk_image]
    ring
  · rfl

/-- Claim C10: A call whose image URL strips to the empty string, or whose
requested size is below 512 MB, returns one of the two validation error
statuses and no output path, and its operation trace is empty: no
registry access, no download, and no disk operation happens. -/
theorem c10_input_validation (env : AppEnv) (image_url : Str) (image_size_mb : Int)
    (h : pyStrip image_url = [] ∨ image_size_mb < 512) :
    ((convert_docker_image env image_url image_size_mb).1.1 = msgEmptyUrl ∨
      (convert_docker_image env image_url image_size_mb).1.1 = msgSizeTooSmall) ∧
    (convert_docker_image env image_url image_size_mb).1.2 = none ∧
    (convert_docker_image env image_url image_size_mb).2 = [] := by
  unfold convert_docker_image
  rcases h with h | h
  · simp [h]
  · by_cases hu : pyStrip image_url = []
    · simp [hu]
    · simp [hu, h]

/-- Claim C10 witness:  A whitespace-only URL with a valid size is
rejected with the empty-URL error, yields no path, and performs no
operations; definitions evaluate accordingly. -/
theorem c10_witness :
    ((convert_docker_image ⟨true, true, true, true, true, true, true⟩
        "   ".toList 2048).1.1 = msgEmptyUrl ∨
      (convert_docker_image ⟨true, true, true, true, true, true, true⟩
        "   ".toList 2048).1.1 = msgSizeTooSmall) ∧
    (convert_docker_image ⟨true, true, true, true, true, true, true⟩
      "   ".toList 2048).1.2 = none ∧
    (convert_docker_image ⟨true, true, true, true, true, true, true⟩
      "   ".toList 2048).2 = [] :=
  c10_input_validation ⟨true, true, true, true, true, true, true⟩
    "   ".toList 2048 (Or.inl (by decide))

theorem downloadLayersLoop_length (blobOk : String → Bool) (output_dir : String) :
    ∀ (ls : List JVal) (i : Nat) (xs : List String),
      downloadLayersLoop blobOk output_dir i ls = .ok xs → xs.length = ls.length := by
  intro ls
  induction ls with
  | nil =>
      intro i xs h
      simp only [downloadLayersLoop] at h
      cases h
      rfl
  | cons l rest ih =>
      intro i xs h
      unfold downloadLayersLoop at h
      split at h
      · split at h
        · split at h
          · rename_i digest _ _
            cases hrec : downloadLayersLoop blobOk output_dir (i + 1) rest with
            | error e => rw [hrec] at h; simp [Except.map] at h
            | ok ps =>
                rw [hrec] at h
                simp only [Except.map, Except.ok.injEq] at h
                rw [← h]
                simp [ih (i + 1) ps hrec]
          · cases h
        · cases h
        · cases h
      · cases h

/-- Claim C5: A resolved concrete manifest (not carrying the manifest-list
media type) whose extracted layer list is empty makes layer download fail
with the no-layers error; and in general a successful download never
returns an empty path list. -/
theorem c5_empty_layers_is_error (dxfFetch : String → Except String JVal)
    (blobOk : String → Bool) (output_dir platform : String) (m : JObj)
    (hconc : jEqStr (jGet m "mediaType") manifestListV2 = false)
    (hempty : extractLayersValue m = .ok (jarr [])) :
    download_all_layers dxfFetch blobOk output_dir platform m =
      .error "No layers found in manifest" ∧
    ∀ (m2 : JObj) (xs : List String),
      download_all_layers dxfFetch blobOk output_dir platform m2 = .ok xs → xs ≠ [] := by
  constructor
  · unfold download_all_layers listRefetchBlock
    rw [hconc]
    simp only [Bool.false_eq_true, if_false, hempty]
    rfl
  · intro m2 xs h hxs
    unfold download_all_layers at h
    cases hrb : listRefetchBlock dxfFetch platform m2 with
    | error e => rw [hrb] at h; cases h
    | ok m3 =>
        rw [hrb] at h
        dsimp only at h
        cases hev : extractLayersValue m3 with
        | error e => rw [hev] at h; cases h
        | ok lv =>
            rw [hev] at h
            by_cases ht : jTruthy (some lv) = true
            · simp only [ht, Bool.not_true, Bool.false_eq_true, if_false] at h
              cases lv with
              | jarr ls =>
                  have hlen := downloadLayersLoop_length blobOk output_dir ls 0 xs h
                  have hne : ls ≠ [] := by
                    intro hls
                    rw [hls] at ht
                    simp [jTruthy] at ht
                  rw [hxs] at hlen
                  exact hne (List.length_eq_zero.mp hlen.symm)
              | jnull => cases h
              | jbool b => cases h
              | jnum n => cases h
              | jstr s => cases h
              | jobj o => cases h
            · simp only [Bool.not_eq_true] at ht
              simp only [ht, Bool.not_false, if_true] at h
              cases h

/-- Claim C5 witness:  A schema-2 manifest with an explicitly empty
`layers` array is rejected with the no-layers error. -/
theorem c5_witness :
    download_all_layers (fun _ => .error "network unavailable") (fun _ => false)
      "/tmp/layers" "linux/amd64" [("schemaVersion", jnum 2), ("layers", jarr [])] =
      .error "No layers found in manifest" :=
  (c5_empty_layers_is_error (fun _ => .error "network unavailable") (fun _ => false)
    "/tmp/layers" "linux/amd64" [("schemaVersion", jnum 2), ("layers", jarr [])]
    rfl rfl).1

/-- Claim C8: For every environment (any guest `os-release` contents or
none, and any outcome of the fallible generic-path operations), the
bootloader-installation step's action trace consists of the three bind
mounts, then the detection/installation body, then — last, before the
step returns or re-raises — the three unmounts in exactly the reverse of
the mount order. -/
theorem c8_bind_mounts_unwound_in_reverse (env : BootEnv) (mount_point loop_device : String) :
    ∃ (bodyTrace : List BootAction) (raised : Bool),
      install_kernel_and_bootloader env mount_point loop_device =
        (bindMountOrder.map BootAction.bindMount ++ bodyTrace ++
          bindMountOrder.reverse.map BootAction.unmountBind, raised) :=
  ⟨(detectAndInstall env mount_point loop_device).1,
   (detectAndInstall env mount_point loop_device).2, rfl⟩

/-! ### Lemmas about splitting character lists -/

theorem splitOn_single {c : Char} {s : Str} (h : c ∉ s) : s.splitOn c = [s] := by
  simp only [List.splitOn]
  refine List.splitOnP_eq_single _ _ (fun x hx => ?_)
  simp only [beq_iff_eq]
  intro hxc
  exact h (hxc ▸ hx)

theorem splitOn_append {c : Char} {a : Str} (h : c ∉ a) (b : Str) :
    (a ++ c :: b).splitOn c = a :: b.splitOn c := by
  simp only [List.splitOn]
  refine List.splitOnP_first _ _ (fun x hx => ?_) c (by simp) b
  simp only [beq_iff_eq]
  intro hxc
  exact h (hxc ▸ hx)

theorem intercalate_single (c : Char) (a : Str) : List.intercalate [c] [a] = a := by
  simp [List.intercalate]

theorem intercalate_pair (c : Char) (a b : Str) :
    List.intercalate [c] [a, b] = a ++ c :: b := by
  simp [List.intercalate, List.intersperse]

theorem isDoubleSlash_eq_false {t : Str} (h : ('/' : Char) ∉ t) :
    isDoubleSlash t = false := by
  cases t with
  | nil => rfl
  | cons a u =>
      cases u with
      | nil => rfl
      | cons b v =>
          have ha : a ≠ '/' := fun hEq => h (by simp [hEq])
          have hab : (a == '/') = false := by
            cases hcc : a == '/' with
            | false => rfl
            | true => exact absurd (by simpa [beq_iff_eq] using hcc) ha
          simp [isDoubleSlash, hab]

theorem hasProtocol_append {a : Str} (h : (':' : Char) ∉ a) (b : Str) :
    hasProtocol (a ++ b) = hasProtocol b := by
  induction a with
  | nil => rfl
  | cons c rest ih =>
      have hc : c ≠ ':' := fun hEq => h (by simp [hEq])
      have hrest : (':' : Char) ∉ rest := fun hm => h (List.mem_cons_of_mem _ hm)
      have hcb : (c == ':') = false := by
        cases hcc : c == ':' with
        | false => rfl
        | true => exact absurd (by simpa [beq_iff_eq] using hcc) hc
      simp [hasProtocol, hcb, ih hrest]

theorem hasProtocol_eq_false {s : Str} (h : (':' : Char) ∉ s) :
    hasProtocol s = false := by
  have := hasProtocol_append h ([] : Str)
  simpa using this

theorem hasProtocol_colon_tail {t : Str} (h1 : (':' : Char) ∉ t)
    (h2 : ('/' : Char) ∉ t) : hasProtocol (':' :: t) = false := by
  simp [hasProtocol, isDoubleSlash_eq_false h2, hasProtocol_eq_false h1]

/-- Claim C7: URL parsing: a valid bare image name maps to the public hub
host, a `library/`-prefixed repository, and the `latest` tag; a
`name:tag` input extracts the tag; a `host/ns/name:tag` input takes
`host` as the registry host, `ns/name` as the repository, and `tag` as
the tag. -/
theorem c7_parse_image_url (name tag host ns : Str)
    (hn1 : (':' : Char) ∉ name) (hn2 : ('/' : Char) ∉ name) (_hn3 : name ≠ [])
    (ht1 : (':' : Char) ∉ tag) (ht2 : ('/' : Char) ∉ tag)
    (hh1 : (':' : Char) ∉ host) (hh2 : ('/' : Char) ∉ host)
    (hs1 : (':' : Char) ∉ ns) (hs2 : ('/' : Char) ∉ ns) :
    parse_image_url name = (dockerHubHost, "library/".toList ++ name, "latest".toList) ∧
    parse_image_url (name ++ (':' :: tag)) =
      (dockerHubHost, "library/".toList ++ name, tag) ∧
    parse_image_url (host ++ ('/' :: (ns ++ ('/' :: (name ++ (':' :: tag)))))) =
      (host, ns ++ ('/' :: name), tag) := by
  refine ⟨?_, ?_, ?_⟩
  · -- bare name
    unfold parse_image_url
    rw [hasProtocol_eq_false hn1]
    simp only [Bool.false_eq_true, if_false]
    rw [splitOn_single hn2]
    have hmem : (':' : Char) ∉ "library/".toList ++ name := by
      intro hm
      rcases List.mem_append.mp hm with hm | hm
      · simp at hm
      · exact hn1 hm
    simp only [if_neg hmem]
  · -- name:tag
    have hproto : hasProtocol (name ++ (':' :: tag)) = false := by
      rw [hasProtocol_append hn1]
      exact hasProtocol_colon_tail ht1 ht2
    have hslash : ('/' : Char) ∉ name ++ (':' :: tag) := by
      intro hm
      rcases List.mem_append.mp hm with hm | hm
      · exact hn2 hm
      · rcases List.mem_cons.mp hm with hm | hm
        · cases hm
        · exact ht2 hm
    unfold parse_image_url
    rw [hproto]
    simp only [Bool.false_eq_true, if_false]
    rw [splitOn_single hslash]
    have hmem : (':' : Char) ∈ "library/".toList ++ (name ++ (':' :: tag)) := by
      simp
    simp only [if_pos hmem]
    have hsplit : ("library/".toList ++ (name ++ (':' :: tag))).splitOn ':' =
        ("library/".toList ++ name) :: [tag] := by
      have hlibname : (':' : Char) ∉ "library/".toList ++ name := by
        intro hm
        rcases List.mem_append.mp hm with hm | hm
        · simp at hm
        · exact hn1 hm
      have hassoc : "library/".toList ++ (name ++ (':' :: tag)) =
          ("library/".toList ++ name) ++ (':' :: tag) := by simp
      rw [hassoc, splitOn_append hlibname, splitOn_single ht1]
    rw [hsplit]
    simp [List.getLastD, intercalate_single]
  · -- host/ns/name:tag
    have hcolonpre : (':' : Char) ∉ host ++ ('/' :: (ns ++ ('/' :: name))) := by
      intro hm
      rcases List.mem_append.mp hm with hm | hm
      · exact hh1 hm
      · rcases List.mem_cons.mp hm with hm | hm
        · cases hm
        · rcases List.mem_append.mp hm with hm | hm
          · exact hs1 hm
          · rcases List.mem_cons.mp hm with hm | hm
            · cases hm
            · exact hn1 hm
    have hproto :
        hasProtocol (host ++ ('/' :: (ns ++ ('/' :: (name ++ (':' :: tag)))))) = false := by
      have hassoc : host ++ ('/' :: (ns ++ ('/' :: (name ++ (':' :: tag))))) =
          (host ++ ('/' :: (ns ++ ('/' :: name)))) ++ (':' :: tag) := by simp
      rw [hassoc, hasProtocol_append hcolonpre]
      exact hasProtocol_colon_tail ht1 ht2
    have hlastpart : ('/' : Char) ∉ name ++ (':' :: tag) := by
      intro hm
      rcases List.mem_append.mp hm with hm | hm
      · exact hn2 hm
      · rcases List.mem_cons.mp hm with hm | hm
        · cases hm
        · exact ht2 hm
    unfold parse_image_url
    rw [hproto]
    simp only [Bool.false_eq_true, if_false]
    have hparts :
        (host ++ ('/' :: (ns ++ ('/' :: (name ++ (':' :: tag)))))).splitOn '/' =
          host :: ns :: [name ++ (':' :: tag)] := by
      rw [splitOn_append hh2, splitOn_append hs2, splitOn_single hlastpart]
    rw [hparts]
    simp only [intercalate_pair]
    have hmem : (':' : Char) ∈ ns ++ ('/' :: (name ++ (':' :: tag))) := by simp
    simp only [if_pos hmem]
    have hsplit : (ns ++ ('/' :: (name ++ (':' :: tag)))).splitOn ':' =
        (ns ++ ('/' :: name)) :: [tag] := by
      have hpre : (':' : Char) ∉ ns ++ ('/' :: name) := by
        intro hm
        rcases List.mem_append.mp hm with hm | hm
        · exact hs1 hm
        · rcases List.mem_cons.mp hm with hm | hm
          · cases hm
          · exact hn1 hm
      have hassoc : ns ++ ('/' :: (name ++ (':' :: tag))) =
          (ns ++ ('/' :: name)) ++ (':' :: tag) := by
        simp
      rw [hassoc, splitOn_append hpre, splitOn_single ht1]
    rw [hsplit]
    simp [List.getLastD, intercalate_single]

/-- Claim C7 witness:  `alpine:3.19` parses to the hub host, the
`library/alpine` repository, and tag `3.19`. -/
theorem c7_witness :
    parse_image_url ("alpine".toList ++ (':' :: "3.19".toList)) =
      (dockerHubHost, "library/".toList ++ "alpine".toList, "3.19".toList) :=
  (c7_parse_image_url "alpine".toList "3.19".toList "registry.example.com".toList
    "mygroup".toList (by decide) (by decide) (by decide) (by decide) (by decide)
    (by decide) (by decide) (by decide) (by decide)).2.1

theorem filter_kpartx_trigger (c : Prop) [Decidable c] (e : Nat) :
    (List.filter (fun p => p.2 == WaitAction.kpartxFallback)
      ((if c then [(e, WaitAction.periodicReread)] else []) :
        List (Nat × WaitAction))).length = 0 := by
  by_cases h : c <;> simp [h]

theorem filter_kpartx_kact (c : Prop) [Decidable c] (e : Nat) :
    (List.filter (fun p => p.2 == WaitAction.kpartxFallback)
      ((if c then [(e, WaitAction.kpartxFallback)] else []) :
        List (Nat × WaitAction))).length ≤ 1 := by
  by_cases h : c <;> simp [h]

theorem wait_loop_never (env : WaitEnv) (expected mapper : String) (timeout : Nat)
    (h1 : ∀ t, env.existsExpected t = false) (h2 : ∀ t, env.existsMapper t = false)
    (h3 : ∀ t, env.lsblkPart t = none) :
    ∀ (remaining elapsed lastTrigger : Nat) (attempted : Bool),
      (wait_loop env expected mapper timeout remaining elapsed lastTrigger attempted).1 =
        .error (timeoutMsg expected timeout) ∧
      ((wait_loop env expected mapper timeout remaining elapsed lastTrigger
          attempted).2.filter (fun p => p.2 == WaitAction.kpartxFallback)).length ≤
        (if attempted then 0 else 1) ∧
      (∀ p ∈ (wait_loop env expected mapper timeout remaining elapsed lastTrigger
          attempted).2, p.2 = WaitAction.kpartxFallback → 10 ≤ p.1) := by
  intro remaining
  induction remaining with
  | zero =>
      intro elapsed lastTrigger attempted
      refine ⟨by simp only [wait_loop, h1, h2, h3, Bool.false_eq_true, if_false], ?_, ?_⟩
      · simp only [wait_loop, h1, h2, h3, Bool.false_eq_true, if_false,
          List.filter_append, List.length_append, filter_kpartx_trigger]
        cases attempted with
        | true => simp
        | false =>
            have := filter_kpartx_kact
              ((!false && decide (10 ≤ elapsed)) = true) elapsed
            simpa using this
      · intro p hp hk
        simp only [wait_loop, h1, h2, h3, Bool.false_eq_true, if_false] at hp
        rcases List.mem_append.mp hp with hpt | hpk
        · by_cases ht : 3 ≤ elapsed - lastTrigger
          · simp only [if_pos ht, List.mem_singleton] at hpt
            rw [hpt] at hk
            cases hk
          · simp only [if_neg ht] at hpt
            cases hpt
        · by_cases hkn : (!attempted && decide (10 ≤ elapsed)) = true
          · simp only [hkn, if_true, List.mem_singleton] at hpk
            simp only [Bool.and_eq_true, Bool.not_eq_true, decide_eq_true_eq] at hkn
            rw [hpk]
            exact hkn.2
          · simp only [hkn, if_false, Bool.false_eq_true, List.not_mem_nil] at hpk
  | succ n ih =>
      intro elapsed lastTrigger attempted
      rw [wait_loop]
      simp only [h1, h2, h3, Bool.false_eq_true, if_false]
      refine ⟨?_, ?_, ?_⟩
      · exact (ih (elapsed + 1) _ _).1
      · simp only [List.filter_append, List.length_append, filter_kpartx_trigger]
        cases attempted with
        | true =>
            simp only [Bool.not_true, Bool.false_and, Bool.true_or, Bool.false_eq_true,
              if_false, List.filter_nil, List.length_nil]
            have hrec := (ih (elapsed + 1)
              (if 3 ≤ elapsed - lastTrigger then elapsed else lastTrigger) true).2.1
            simpa using hrec
        | false =>
            simp only [Bool.not_false, Bool.true_and, Bool.false_or]
            by_cases h10 : 10 ≤ elapsed
            · rw [decide_eq_true h10]
              have hrec := (ih (elapsed + 1)
                (if 3 ≤ elapsed - lastTrigger then elapsed else lastTrigger) true).2.1
              have hb : (if (true : Bool) = true then 0 else 1) = 0 := rfl
              rw [hb] at hrec
              have hsing : (List.filter (fun p => p.2 == WaitAction.kpartxFallback)
                  (if ((true : Bool) = true) then [(elapsed, WaitAction.kpartxFallback)]
                    else ([] : List (Nat × WaitAction)))).length = 1 := rfl
              rw [hsing]
              have hbb : (if (false : Bool) = true then 0 else 1) = 1 := rfl
              rw [hbb]
              omega
            · rw [decide_eq_false h10]
              have hrec := (ih (elapsed + 1)
                (if 3 ≤ elapsed - lastTrigger then elapsed else lastTrigger) false).2.1
              have hb : (if (false : Bool) = true then 0 else 1) = 1 := rfl
              rw [hb] at hrec
              have hnil : (List.filter (fun p => p.2 == WaitAction.kpartxFallback)
                  (if ((false : Bool) = true) then [(elapsed, WaitAction.kpartxFallback)]
                    else ([] : List (Nat × WaitAction)))).length = 0 := rfl
              rw [hnil]
              have hbb : (if (false : Bool) = true then 0 else 1) = 1 := rfl
              rw [hbb]
              omega
      · intro p hp hk
        rcases List.mem_append.mp hp with hpt12 | hpr
        · rcases List.mem_append.mp hpt12 with hpt | hpk
          · by_cases ht : 3 ≤ elapsed - lastTrigger
            · simp only [if_pos ht, List.mem_singleton] at hpt
              rw [hpt] at hk
              cases hk
            · simp only [if_neg ht] at hpt
              cases hpt
          · by_cases hkn : (!attempted && decide (10 ≤ elapsed)) = true
            · simp only [hkn, if_true, List.mem_singleton] at hpk
              simp only [Bool.and_eq_true, Bool.not_eq_true, decide_eq_true_eq] at hkn
              rw [hpk]
              exact hkn.2
            · simp only [hkn, if_false, Bool.false_eq_true, List.not_mem_nil] at hpk
        · exact (ih (elapsed + 1) _ _).2.2 p hpr hk

/-- Claim C6: When neither the primary partition path nor the mapper-style
fallback path (nor any `lsblk`-visible partition) ever appears, the wait
terminates once the bounded timeout elapses and raises an error naming
the expected partition device path; the kpartx escalation is performed at
most once, and only at or after the 10-second grace period. -/
theorem c6_wait_times_out (env : WaitEnv) (loop_device : String)
    (partition_number timeout : Nat)
    (h1 : ∀ t, env.existsExpected t = false)
    (h2 : ∀ t, env.existsMapper t = false)
    (h3 : ∀ t, env.lsblkPart t = none) :
    (wait_for_partition_device env loop_device partition_number timeout).1 =
      .error (timeoutMsg (loop_device ++ "p" ++ toString partition_number) timeout) ∧
    ((wait_for_partition_device env loop_device partition_number timeout).2.filter
      (fun p => p.2 == WaitAction.kpartxFallback)).length ≤ 1 ∧
    ∀ p ∈ (wait_for_partition_device env loop_device partition_number timeout).2,
      p.2 = WaitAction.kpartxFallback → 10 ≤ p.1 := by
  have h := wait_loop_never env (loop_device ++ "p" ++ toString partition_number)
    ("/dev/mapper/" ++ baseName loop_device ++ "p" ++ toString partition_number)
    timeout h1 h2 h3 timeout 0 0 false
  unfold wait_for_partition_device
  simp only [h1, h2, Bool.false_eq_true, if_false]
  exact ⟨h.1, h.2.1, h.2.2⟩

/-- An environment in which no partition node ever becomes visible. -/
def neverEnv : WaitEnv := ⟨fun _ => false, fun _ => false, fun _ => none⟩

/-- Claim C6 witness:  With a 12-second timeout and no node ever
appearing, the wait returns the timeout error naming `/dev/loop0p1`, with
at most one kpartx escalation. -/
theorem c6_witness :
    (wait_for_partition_device neverEnv "/dev/loop0" 1 12).1 =
      .error (timeoutMsg "/dev/loop0p1" 12) ∧
    ((wait_for_partition_device neverEnv "/dev/loop0" 1 12).2.filter
      (fun p => p.2 == WaitAction.kpartxFallback)).length ≤ 1 :=
  ⟨(c6_wait_times_out neverEnv "/dev/loop0" 1 12 (fun _ => rfl) (fun _ => rfl)
      (fun _ => rfl)).1,
   (c6_wait_times_out neverEnv "/dev/loop0" 1 12 (fun _ => rfl) (fun _ => rfl)
      (fun _ => rfl)).2.1⟩

end D2I
